import Mathlib

/-!
Verification of the AssessmentBetter Express application.

The application source registers a JSON body-parsing middleware, mounts an
imported routes module at the root path, and installs a catch-all middleware
answering 404 with a fixed JSON error body. The routes module itself and the
server bootstrap are not present under src, so those parts are modelled from
the specification where a claim needs them; everything else is embedded
directly from the source files.
-/

namespace NodeApp

/-- An HTTP request as the router sees it: method, path, headers and raw body. -/
structure Request where
  method : String
  path : String
  headers : List (String × String)
  body : String
deriving DecidableEq, Repr

/-- A response body: a JSON object with string-valued fields, or plain text. -/
inductive Body where
  | jsonObj (fields : List (String × String))
  | text (s : String)
deriving DecidableEq, Repr

/-- Whether a body is a JSON object. -/
def Body.isJson : Body → Bool
  | .jsonObj _ => true
  | .text _ => false

/-- An HTTP response: status code, content-type media type, and body. -/
structure Response where
  status : Nat
  contentType : String
  body : Body
deriving DecidableEq, Repr

/-- The catch-all middleware of app.js: res.status(404).json with the error
field set to Not Found; res.json sets the content-type to application/json. -/
def fallbackHandler (_req : Request) : Response :=
  ⟨404, "application/json", .jsonObj [("error", "Not Found")]⟩

/-- One layer of the Express middleware stack built by the app.use calls of
app.js: a request-rewriting middleware, a mounted routes module that may or
may not produce a response, or a terminal handler that always responds. -/
inductive Layer where
  | rewrite (f : Request → Request)
  | route (h : Request → Option Response)
  | final (h : Request → Response)

/-- Run the middleware stack on a request: a rewrite layer transforms the
request and passes on, a route layer responds if its handler matches and
otherwise falls through, a final layer always responds. -/
def runStack : List Layer → Request → Option Response
  | [], _ => none
  | .rewrite f :: rest, req => runStack rest (f req)
  | .route h :: rest, req =>
      match h req with
      | some res => some res
      | none => runStack rest req
  | .final h :: _, req => some (h req)

/-- The express.json() middleware parses the body; since the embedding keeps
the body as the raw string and no handler reads it, it leaves the request
record unchanged. -/
def jsonMiddleware (req : Request) : Request := req

/-- The middleware stack of app.js in source order: express.json(), the routes
module mounted at the root path, then the catch-all 404 handler. -/
def appStack (routes : Request → Option Response) : List Layer :=
  [.rewrite jsonMiddleware, .route routes, .final fallbackHandler]

/-- The built-in Express terminal response when the stack is exhausted; it is
unreachable here because app.js installs a catch-all final handler. -/
def expressDefault (req : Request) : Response :=
  ⟨404, "text/html", .text ("Cannot " ++ req.method ++ " " ++ req.path)⟩

/-- The exported Express application of app.js, parameterized by the imported
routes module, which require resolves at load time. -/
def app (routes : Request → Option Response) (req : Request) : Response :=
  (runStack (appStack routes) req).getD (expressDefault req)

/-- Modelled from the spec: the ./routes module that app.js imports is not part
of the repository source. Per the spec, it registers a single handler, GET on
the root path, answering 200 with a JSON object whose message field is
Welcome to Node.js App, and matches nothing else. -/
def routes (req : Request) : Option Response :=
  if req.method = "GET" ∧ req.path = "/" then
    some ⟨200, "application/json", .jsonObj [("message", "Welcome to Node.js App")]⟩
  else none

/-- Modelled from the spec: the src/index module that the second test file
imports is not part of the repository source. Per the second variant of the
spec, GET on the root path answers 200 with the plain-text body Hello World,
and nothing else matches. -/
def indexRoutes (req : Request) : Option Response :=
  if req.method = "GET" ∧ req.path = "/" then
    some ⟨200, "text/html", .text "Hello World"⟩
  else none

/-- The second-variant application, assembled like app.js around the
spec-modelled index routes. -/
def indexApp : Request → Response := app indexRoutes

/-- Serve a list of requests in order. The source keeps no state between
requests, so the embedding threads none: each response comes from the pure
application function alone. -/
def serve (r : Request → Option Response) : List Request → List Response
  | [] => []
  | q :: qs => app r q :: serve r qs

/-- One Dockerfile instruction, as used by src/Dockerfile. -/
inductive DockerInstr where
  | fromImage (img : String)
  | workdir (dir : String)
  | copy (srcPat dst : String)
  | run (c : String)
  | expose (port : Nat)
  | cmd (args : List String)
deriving DecidableEq, Repr

/-- src/Dockerfile, instruction by instruction. -/
def dockerfile : List DockerInstr :=
  [ .fromImage "node:16"
  , .workdir "/usr/src/app"
  , .copy "package*.json" "./"
  , .run "npm install"
  , .copy "." "."
  , .expose 3000
  , .cmd ["npm", "start"] ]

/-- Whether an instruction exposes a port. -/
def isExpose : DockerInstr → Bool
  | .expose _ => true
  | _ => false

/-- Whether an instruction is a container start command. -/
def isCmd : DockerInstr → Bool
  | .cmd _ => true
  | _ => false

/-- Modelled from the spec: the server bootstrap module that calls listen is
not part of the repository source; per the spec, the container interface
listens for HTTP connections on port 3000. -/
def listenPort : Nat := 3000

/-- One top-level statement of app.js, as relevant to load-time effects. -/
inductive TopStmt where
  | requireModule (name : String)
  | createApp
  | useJsonMiddleware
  | mountRoutes (path : String)
  | useFallback
  | exportApp
  | listen (port : Nat)
deriving DecidableEq, Repr

/-- The top-level statements of app.js in source order. -/
def appModule : List TopStmt :=
  [ .requireModule "express"
  , .requireModule "./routes"
  , .createApp
  , .useJsonMiddleware
  , .mountRoutes "/"
  , .useFallback
  , .exportApp ]

/-- Whether a statement binds a network port when the module is loaded. -/
def TopStmt.bindsPort : TopStmt → Bool
  | .listen _ => true
  | _ => false

/-- C1: a GET request to the root path receives status 200 with the JSON body
whose message field is Welcome to Node.js App, whatever its headers and body. -/
theorem get_root_welcome (hs : List (String × String)) (b : String) :
    app routes ⟨"GET", "/", hs, b⟩ =
      ⟨200, "application/json", .jsonObj [("message", "Welcome to Node.js App")]⟩ := by
  simp [app, appStack, runStack, jsonMiddleware, routes]

/-- C2: any request that the mounted routes module does not match receives
status 404 with the JSON body whose error field is Not Found, for every
routes module. -/
theorem unmatched_gives_404 (r : Request → Option Response) (req : Request)
    (h : r req = none) :
    app r req = ⟨404, "application/json", .jsonObj [("error", "Not Found")]⟩ := by
  simp [app, appStack, runStack, jsonMiddleware, h, fallbackHandler]

/-- Witness for C2 at the concrete request GET /unknown. -/
theorem unmatched_gives_404_witness :
    routes ⟨"GET", "/unknown", [], ""⟩ = none ∧
      app routes ⟨"GET", "/unknown", [], ""⟩ =
        ⟨404, "application/json", .jsonObj [("error", "Not Found")]⟩ :=
  ⟨by decide, unmatched_gives_404 routes ⟨"GET", "/unknown", [], ""⟩ (by decide)⟩

/-- C3: every response of the application has status 200 or status 404. -/
theorem status_200_or_404 (req : Request) :
    (app routes req).status = 200 ∨ (app routes req).status = 404 := by
  by_cases h : req.method = "GET" ∧ req.path = "/"
  · left
    simp [app, appStack, runStack, jsonMiddleware, routes, h]
  · right
    simp [app, appStack, runStack, jsonMiddleware, routes, h, fallbackHandler]

/-- C4: after any earlier traffic, two identical consecutive requests receive
identical responses; the server threads no state between requests. -/
theorem repeated_request_same_response (r : Request → Option Response)
    (pre : List Request) (q : Request) :
    serve r (pre ++ [q, q]) = serve r pre ++ [app r q, app r q] := by
  induction pre with
  | nil => rfl
  | cons x xs ih => simp [serve, ih]

/-- C5: in the second variant, a GET request to the root path receives status
200 with the plain-text body Hello World, whatever its headers and body. -/
theorem get_root_hello (hs : List (String × String)) (b : String) :
    indexApp ⟨"GET", "/", hs, b⟩ = ⟨200, "text/html", .text "Hello World"⟩ := by
  simp [indexApp, app, appStack, runStack, jsonMiddleware, indexRoutes]

/-- C6: every response of the application whose body is a JSON object carries
the content-type application/json. -/
theorem json_body_content_type (req : Request)
    (_hj : (app routes req).body.isJson = true) :
    (app routes req).contentType = "application/json" := by
  by_cases h : req.method = "GET" ∧ req.path = "/"
  · simp [app, appStack, runStack, jsonMiddleware, routes, h]
  · simp [app, appStack, runStack, jsonMiddleware, routes, h, fallbackHandler]

/-- Witness for C6 at the concrete request GET /unknown, whose 404 response
body is a JSON object. -/
theorem json_body_content_type_witness :
    (app routes ⟨"GET", "/unknown", [], ""⟩).body.isJson = true ∧
      (app routes ⟨"GET", "/unknown", [], ""⟩).contentType = "application/json" :=
  ⟨by decide, json_body_content_type ⟨"GET", "/unknown", [], ""⟩ (by decide)⟩

/-- C7: the Dockerfile exposes exactly port 3000, has exactly one container
start command, npm start, and the modelled server listen port is 3000. -/
theorem container_port_and_start :
    dockerfile.filter isExpose = [.expose 3000] ∧
      dockerfile.filter isCmd = [.cmd ["npm", "start"]] ∧
      listenPort = 3000 :=
  ⟨rfl, rfl, rfl⟩

/-- C8: the 404 fallback handler returns the same constant response for every
request, independent of method, path, headers and body. -/
theorem fallback_constant (req : Request) :
    fallbackHandler req =
      ⟨404, "application/json", .jsonObj [("error", "Not Found")]⟩ :=
  rfl

/-- C9: the response at the root route is not determined by the source alone;
two admissible routes modules give the application different responses there,
while on any request no routes module matches, the response is the same for
all of them, so only the fallback is fully determined by the code. -/
theorem root_route_underdetermined :
    (∃ r₁ r₂ : Request → Option Response,
        app r₁ ⟨"GET", "/", [], ""⟩ ≠ app r₂ ⟨"GET", "/", [], ""⟩) ∧
      (∀ (r₁ r₂ : Request → Option Response) (req : Request),
        r₁ req = none → r₂ req = none → app r₁ req = app r₂ req) := by
  constructor
  · exact ⟨routes, indexRoutes, by decide⟩
  · intro r₁ r₂ req h₁ h₂
    simp [app, appStack, runStack, jsonMiddleware, h₁, h₂]

/-- Witness for C9: on the unmatched request GET /unknown, the two modelled
routes modules give the application the same response. -/
theorem root_route_underdetermined_witness :
    app routes ⟨"GET", "/unknown", [], ""⟩ =
      app indexRoutes ⟨"GET", "/unknown", [], ""⟩ :=
  root_route_underdetermined.2 routes indexRoutes ⟨"GET", "/unknown", [], ""⟩
    (by decide) (by decide)

/-- C10: no top-level statement of app.js binds a network port, and the module
exports the application object. -/
theorem load_no_listen :
    appModule.all (fun s => !TopStmt.bindsPort s) = true ∧
      TopStmt.exportApp ∈ appModule := by
  decide

end NodeApp
